import Mathlib

/-!
# gosem: COSEM set-response and data-block codecs

Shallow embedding of `dlms/setResponse.go`, `dlms/getDataResult.go` and
`dlms/attributeDescriptorWithSelection.go`.

Conventions of the embedding.

* A Go `byte`/`uint8` is a `Nat` (below 256 on every well-typed input), a `uint32` is a
  `Nat` below `2 ^ 32`; narrowing conversions such as `uint8(len(x))` are written `% 256`.
* A `*[]byte` cursor is passed in as a `List Nat` and handed back in the result.
* A Go function with results `(out, err)` returns `Run.ret out err src`, where `out` is the
  (possibly partially filled) named result, `err` the Go error (`none` for `nil`) and `src`
  the cursor as the call leaves it.  A run-time panic (index or slice out of range, failed
  type assertion, explicit `panic`) is `Run.panic`, or `none` for functions without cursor.
-/

namespace Cosem

/-! ## Errors, results, registry -/

/-- Go error values that the decoders can return. -/
inductive DecodeError where
  /-- `ErrWrongTag(idx, found, expected)`. -/
  | wrongTag (idx found expected : Nat)
  /-- `fmt.Errorf("byte tag not recognized (%v)", b)` of the set-response dispatcher. -/
  | tagNotRecognized (found : Nat)
  /-- Error of the access-result registry for a byte that is not one of its codes. -/
  | unrecognizedCode (found : Nat)
  /-- Error of an A-XDR primitive that finds fewer bytes than it needs. -/
  | insufficientLength (needed available : Nat)
  /-- `fmt.Errorf("byte slice length must be at least 11 bytes")`, with the bound. -/
  | lengthBelow (minimum : Nat)
  deriving DecidableEq, Repr

/-- Result of running a decoder on a cursor. -/
inductive Run (α : Type) where
  /-- Normal return: named result, error (or `nil`) and the cursor after the call. -/
  | ret (out : α) (err : Option DecodeError) (src : List Nat)
  /-- The call aborted with a Go run-time panic. -/
  | panic
  deriving DecidableEq, Repr

/-- Modelled from the spec: the tag registry, whose declarations (`TagSetResponse`, the
`AccessResultTag` constants) are not among the sources. It holds the outer set-response
PDU tag and the byte values of the access-result codes; an `AccessResultTag` is
represented by its byte value (`Value()`), as for `setResponseTag`. -/
structure TagRegistry where
  TagSetResponse : Nat
  accessCodes : List Nat
  deriving Repr

/-- Modelled from the spec: `ErrWrongTag(position, found, expected)`, the wrong-tag error
constructor, which is declared outside the sources. -/
def ErrWrongTag (idx found expected : Nat) : DecodeError :=
  DecodeError.wrongTag idx found expected

/-- Modelled from the spec: `GetAccessTag`, the registry lookup `code_for(u8)`, which is
declared outside the sources. A byte of the registry yields the code with that byte value
and no error; any other byte yields the zero value and the registry error. -/
def GetAccessTag (reg : TagRegistry) (b : Nat) : Nat × Option DecodeError :=
  if b ∈ reg.accessCodes then (b, none) else (0, some (DecodeError.unrecognizedCode b))

/-- Modelled from the spec: `EncodeDoubleLongUnsigned`, the A-XDR primitive
`encode_double_long_unsigned(u32) -> bytes[4]` (big-endian), declared in package `axdr`. -/
def EncodeDoubleLongUnsigned (n : Nat) : List Nat :=
  [n / 2 ^ 24 % 256, n / 2 ^ 16 % 256, n / 2 ^ 8 % 256, n % 256]

/-- Modelled from the spec: `DecodeDoubleLongUnsigned`, the A-XDR primitive
`decode_double_long_unsigned(cursor) -> (consumed, u32)`, declared in package `axdr`.
It reads four bytes big-endian and advances the cursor; with fewer than four bytes it
returns the insufficient-length error and leaves the cursor alone. The result triple is
(value, error, cursor). -/
def DecodeDoubleLongUnsigned (src : List Nat) : Nat × Option DecodeError × List Nat :=
  match src with
  | b0 :: b1 :: b2 :: b3 :: rest => (((b0 * 256 + b1) * 256 + b2) * 256 + b3, none, rest)
  | _ => (0, some (DecodeError.insufficientLength 4 src.length), src)

/-- Big-endian value of a run of bytes. -/
def beValue (bs : List Nat) : Nat :=
  bs.foldl (fun acc b => acc * 256 + b) 0

/-- Modelled from the spec: `DecodeLength`, the A-XDR variable-width length primitive
`decode_length(cursor) -> (consumed, usize)`, declared in package `axdr`. A first byte
below 0x80 is the length itself; otherwise its low seven bits give the number of
following bytes that hold the length big-endian (a `uint64`). With too few bytes it
returns the insufficient-length error and leaves the cursor alone. The result triple is
(value, error, cursor). -/
def DecodeLength (src : List Nat) : Nat × Option DecodeError × List Nat :=
  match src with
  | [] => (0, some (DecodeError.insufficientLength 1 0), src)
  | b :: rest =>
    if b < 128 then (b, none, rest)
    else if rest.length < b % 128 then
      (0, some (DecodeError.insufficientLength (b % 128 + 1) src.length), src)
    else (beValue (rest.take (b % 128)) % 2 ^ 64, none, rest.drop (b % 128))

/-! ## setResponse.go -/

def TagSetResponseNormal : Nat := 0x1
def TagSetResponseDataBlock : Nat := 0x2
def TagSetResponseLastDataBlock : Nat := 0x3
def TagSetResponseLastDataBlockWithList : Nat := 0x4
def TagSetResponseWithList : Nat := 0x5

structure SetResponseNormal where
  InvokePriority : Nat := 0
  Result : Nat := 0
  deriving DecidableEq, Repr

def CreateSetResponseNormal (invokeId : Nat) (result : Nat) : SetResponseNormal :=
  { InvokePriority := invokeId, Result := result }

def SetResponseNormal.Encode (reg : TagRegistry) (sr : SetResponseNormal) : List Nat :=
  [reg.TagSetResponse, TagSetResponseNormal, sr.InvokePriority, sr.Result]

def DecodeSetResponseNormal (reg : TagRegistry) (src : List Nat) : Run SetResponseNormal :=
  match src[0]? with
  | none => Run.panic
  | some b0 =>
    if b0 ≠ reg.TagSetResponse then
      Run.ret {} (some (ErrWrongTag 0 b0 reg.TagSetResponse)) src
    else
      match src[1]? with
      | none => Run.panic
      | some b1 =>
        if b1 ≠ TagSetResponseNormal then
          Run.ret {} (some (ErrWrongTag 0 b1 TagSetResponseNormal)) src
        else
          match src[2]?, src[3]? with
          | some b2, some b3 =>
            match GetAccessTag reg b3 with
            | (r, some e) => Run.ret { InvokePriority := b2, Result := r } (some e) src
            | (r, none) => Run.ret { InvokePriority := b2, Result := r } none (src.drop 4)
          | _, _ => Run.panic

structure SetResponseDataBlock where
  InvokePriority : Nat := 0
  BlockNum : Nat := 0
  deriving DecidableEq, Repr

def CreateSetResponseDataBlock (invokeId : Nat) (blockNum : Nat) : SetResponseDataBlock :=
  { InvokePriority := invokeId, BlockNum := blockNum }

def SetResponseDataBlock.Encode (reg : TagRegistry) (sr : SetResponseDataBlock) : List Nat :=
  [reg.TagSetResponse, TagSetResponseDataBlock, sr.InvokePriority]
    ++ EncodeDoubleLongUnsigned sr.BlockNum

def DecodeSetResponseDataBlock (reg : TagRegistry) (src : List Nat) :
    Run SetResponseDataBlock :=
  match src[0]? with
  | none => Run.panic
  | some b0 =>
    if b0 ≠ reg.TagSetResponse then
      Run.ret {} (some (ErrWrongTag 0 b0 reg.TagSetResponse)) src
    else
      match src[1]? with
      | none => Run.panic
      | some b1 =>
        if b1 ≠ TagSetResponseDataBlock then
          Run.ret {} (some (ErrWrongTag 0 b1 TagSetResponseDataBlock)) src
        else
          match src[2]? with
          | none => Run.panic
          | some b2 =>
            match DecodeDoubleLongUnsigned (src.drop 3) with
            | (n, err, rest) => Run.ret { InvokePriority := b2, BlockNum := n } err rest

structure SetResponseLastDataBlock where
  InvokePriority : Nat := 0
  Result : Nat := 0
  BlockNum : Nat := 0
  deriving DecidableEq, Repr

def CreateSetResponseLastDataBlock (invokeId : Nat) (result : Nat) (blockNum : Nat) :
    SetResponseLastDataBlock :=
  { InvokePriority := invokeId, Result := result, BlockNum := blockNum }

def SetResponseLastDataBlock.Encode (reg : TagRegistry) (sr : SetResponseLastDataBlock) :
    List Nat :=
  [reg.TagSetResponse, TagSetResponseLastDataBlock, sr.InvokePriority, sr.Result]
    ++ EncodeDoubleLongUnsigned sr.BlockNum

def DecodeSetResponseLastDataBlock (reg : TagRegistry) (src : List Nat) :
    Run SetResponseLastDataBlock :=
  match src[0]? with
  | none => Run.panic
  | some b0 =>
    if b0 ≠ reg.TagSetResponse then
      Run.ret {} (some (ErrWrongTag 0 b0 reg.TagSetResponse)) src
    else
      match src[1]? with
      | none => Run.panic
      | some b1 =>
        if b1 ≠ TagSetResponseLastDataBlock then
          Run.ret {} (some (ErrWrongTag 0 b1 TagSetResponseDataBlock)) src
        else
          match src[2]?, src[3]? with
          | some b2, some b3 =>
            match GetAccessTag reg b3 with
            | (r, some e) => Run.ret { InvokePriority := b2, Result := r } (some e) src
            | (r, none) =>
              match DecodeDoubleLongUnsigned (src.drop 4) with
              | (n, err, rest) =>
                Run.ret { InvokePriority := b2, Result := r, BlockNum := n } err rest
          | _, _ => Run.panic

/-- The result-list loop shared by the two list decoders:
`for i := 0; i < count; i++ { v, e := GetAccessTag((*src)[0]); ...; (*src) = (*src)[1:] }`.
Returns the list built so far, the error and the cursor, or `none` on an index panic. -/
def decodeResultList (reg : TagRegistry) :
    Nat → List Nat → List Nat → Option (List Nat × Option DecodeError × List Nat)
  | 0, acc, src => some (acc, none, src)
  | n + 1, acc, src =>
    match src[0]? with
    | none => none
    | some b =>
      match GetAccessTag reg b with
      | (_, some e) => some (acc, some e, src)
      | (v, none) => decodeResultList reg n (acc ++ [v]) (src.drop 1)

structure SetResponseLastDataBlockWithList where
  InvokePriority : Nat := 0
  ResultCount : Nat := 0
  ResultList : List Nat := []
  BlockNum : Nat := 0
  deriving DecidableEq, Repr

def CreateSetResponseLastDataBlockWithList (invokeId : Nat) (resList : List Nat)
    (blockNum : Nat) : Option SetResponseLastDataBlockWithList :=
  if resList.length < 1 ∨ resList.length > 255 then none
  else some { InvokePriority := invokeId, ResultCount := resList.length % 256,
              ResultList := resList, BlockNum := blockNum }

def SetResponseLastDataBlockWithList.Encode (reg : TagRegistry)
    (sr : SetResponseLastDataBlockWithList) : List Nat :=
  [reg.TagSetResponse, TagSetResponseLastDataBlockWithList, sr.InvokePriority, sr.ResultCount]
    ++ sr.ResultList ++ EncodeDoubleLongUnsigned sr.BlockNum

def DecodeSetResponseLastDataBlockWithList (reg : TagRegistry) (src : List Nat) :
    Run SetResponseLastDataBlockWithList :=
  match src[0]? with
  | none => Run.panic
  | some b0 =>
    if b0 ≠ reg.TagSetResponse then
      Run.ret {} (some (ErrWrongTag 0 b0 reg.TagSetResponse)) src
    else
      match src[1]? with
      | none => Run.panic
      | some b1 =>
        if b1 ≠ TagSetResponseLastDataBlockWithList then
          Run.ret {} (some (ErrWrongTag 0 b1 TagSetResponseLastDataBlockWithList)) src
        else
          match src[2]?, src[3]? with
          | some b2, some b3 =>
            match decodeResultList reg b3 [] (src.drop 4) with
            | none => Run.panic
            | some (l, some e, rest) =>
              Run.ret { InvokePriority := b2, ResultCount := b3, ResultList := l } (some e) rest
            | some (l, none, rest) =>
              match DecodeDoubleLongUnsigned rest with
              | (n, err, rest2) =>
                Run.ret { InvokePriority := b2, ResultCount := b3, ResultList := l,
                          BlockNum := n } err rest2
          | _, _ => Run.panic

structure SetResponseWithList where
  InvokePriority : Nat := 0
  ResultCount : Nat := 0
  ResultList : List Nat := []
  deriving DecidableEq, Repr

def CreateSetResponseWithList (invokeId : Nat) (resList : List Nat) :
    Option SetResponseWithList :=
  if resList.length < 1 ∨ resList.length > 255 then none
  else some { InvokePriority := invokeId, ResultCount := resList.length % 256,
              ResultList := resList }

def SetResponseWithList.Encode (reg : TagRegistry) (sr : SetResponseWithList) : List Nat :=
  [reg.TagSetResponse, TagSetResponseWithList, sr.InvokePriority, sr.ResultCount]
    ++ sr.ResultList

def DecodeSetResponseWithList (reg : TagRegistry) (src : List Nat) :
    Run SetResponseWithList :=
  match src[0]? with
  | none => Run.panic
  | some b0 =>
    if b0 ≠ reg.TagSetResponse then
      Run.ret {} (some (ErrWrongTag 0 b0 reg.TagSetResponse)) src
    else
      match src[1]? with
      | none => Run.panic
      | some b1 =>
        if b1 ≠ TagSetResponseWithList then
          Run.ret {} (some (ErrWrongTag 0 b1 TagSetResponseWithList)) src
        else
          match src[2]?, src[3]? with
          | some b2, some b3 =>
            match decodeResultList reg b3 [] (src.drop 4) with
            | none => Run.panic
            | some (l, err, rest) =>
              Run.ret { InvokePriority := b2, ResultCount := b3, ResultList := l } err rest
          | _, _ => Run.panic

/-- The interface `CosemPDU` restricted to the five set-response shapes. -/
inductive CosemPDU where
  | normal (v : SetResponseNormal)
  | dataBlock (v : SetResponseDataBlock)
  | lastDataBlock (v : SetResponseLastDataBlock)
  | lastDataBlockWithList (v : SetResponseLastDataBlockWithList)
  | withList (v : SetResponseWithList)
  deriving DecidableEq, Repr

/-- Boxing of a shape decoder's result into the interface value, as done by
`out, err = DecodeSetResponseX(src)` in the dispatcher. -/
def Run.box {α : Type} (f : α → CosemPDU) : Run α → Run (Option CosemPDU)
  | Run.ret out err src => Run.ret (some (f out)) err src
  | Run.panic => Run.panic

/-- `(*SetResponse).Decode`; the interface result is `none` for Go's `nil`. -/
def SetResponse.Decode (reg : TagRegistry) (src : List Nat) : Run (Option CosemPDU) :=
  match src[0]? with
  | none => Run.panic
  | some b0 =>
    if b0 ≠ reg.TagSetResponse then
      Run.ret none (some (ErrWrongTag 0 b0 reg.TagSetResponse)) src
    else
      match src[1]? with
      | none => Run.panic
      | some b1 =>
        if b1 = TagSetResponseNormal then
          (DecodeSetResponseNormal reg src).box CosemPDU.normal
        else if b1 = TagSetResponseDataBlock then
          (DecodeSetResponseDataBlock reg src).box CosemPDU.dataBlock
        else if b1 = TagSetResponseLastDataBlock then
          (DecodeSetResponseLastDataBlock reg src).box CosemPDU.lastDataBlock
        else if b1 = TagSetResponseLastDataBlockWithList then
          (DecodeSetResponseLastDataBlockWithList reg src).box CosemPDU.lastDataBlockWithList
        else if b1 = TagSetResponseWithList then
          (DecodeSetResponseWithList reg src).box CosemPDU.withList
        else
          Run.ret none (some (DecodeError.tagNotRecognized b1)) src

/-! ## getDataResult.go: DataBlockG -/

/-- Value of one hexadecimal digit, as in Go's `encoding/hex`. -/
def fromHexChar (c : Char) : Option Nat :=
  if 48 ≤ c.toNat ∧ c.toNat ≤ 57 then some (c.toNat - 48)
  else if 97 ≤ c.toNat ∧ c.toNat ≤ 102 then some (c.toNat - 97 + 10)
  else if 65 ≤ c.toNat ∧ c.toNat ≤ 70 then some (c.toNat - 65 + 10)
  else none

/-- Go's `hex.DecodeString` on the characters of the string; `none` is its error
(a character that is no hexadecimal digit, or an odd number of characters). -/
def hexDecode : List Char → Option (List Nat)
  | [] => some []
  | [_] => none
  | a :: b :: rest =>
    match fromHexChar a, fromHexChar b, hexDecode rest with
    | some x, some y, some r => some ((x * 16 + y) :: r)
    | _, _, _ => none

/-- Dynamic value of an `interface{}` argument or field of the data-block code:
`nil`, a `string`, a `[]byte`, an `accessResultTag`, or a value of any other type. -/
inductive GoValue where
  | nil
  | str (s : String)
  | bytes (b : List Nat)
  | access (r : Nat)
  | other
  deriving DecidableEq, Repr

structure DataBlockG where
  LastBlock : Bool := false
  BlockNumber : Nat := 0
  IsResult : Bool := false
  Result : GoValue := GoValue.nil
  deriving DecidableEq, Repr

/-- `CreateDataBlockGAsData`; `none` is a panic. -/
def CreateDataBlockGAsData (lastBlock : Bool) (blockNum : Nat) (result : GoValue) :
    Option DataBlockG :=
  match result with
  | GoValue.str res =>
    match hexDecode res.toList with
    | none => none
    | some bt => some ⟨lastBlock, blockNum, false, GoValue.bytes bt⟩
  | GoValue.bytes res => some ⟨lastBlock, blockNum, false, GoValue.bytes res⟩
  | _ => none

def CreateDataBlockGAsResult (lastBlock : Bool) (blockNum : Nat) (result : Nat) : DataBlockG :=
  ⟨lastBlock, blockNum, true, GoValue.access result⟩

/-- `CreateDataBlockG`; `none` is a panic. -/
def CreateDataBlockG (lastBlock : Bool) (blockNum : Nat) (result : GoValue) :
    Option DataBlockG :=
  match result with
  | GoValue.str res =>
    match hexDecode res.toList with
    | none => none
    | some bt => CreateDataBlockGAsData lastBlock blockNum (GoValue.bytes bt)
  | GoValue.bytes res => CreateDataBlockGAsData lastBlock blockNum (GoValue.bytes res)
  | GoValue.access res => some (CreateDataBlockGAsResult lastBlock blockNum res)
  | _ => none

/-- `(*DataBlockG).Encode`; `none` is the panic of a failed type assertion on `Result`. -/
def DataBlockG.Encode (dt : DataBlockG) : Option (List Nat) :=
  if dt.IsResult = true then
    match dt.Result with
    | GoValue.access value =>
      some ((if dt.LastBlock then [0x1] else [0x0])
        ++ EncodeDoubleLongUnsigned dt.BlockNumber ++ [0x1, value])
    | _ => none
  else
    match dt.Result with
    | GoValue.bytes value =>
      some ((if dt.LastBlock then [0x1] else [0x0])
        ++ EncodeDoubleLongUnsigned dt.BlockNumber ++ [0x0, value.length % 256] ++ value)
    | _ => none

/-- `(*DataBlockG).ResultAsBytes`; `none` is a panic. -/
def DataBlockG.ResultAsBytes (dt : DataBlockG) : Option (List Nat) :=
  if dt.IsResult then none
  else
    match dt.Result with
    | GoValue.bytes b => some b
    | _ => none

/-- `(*DataBlockG).ResultAsAccess`; `none` is a panic. -/
def DataBlockG.ResultAsAccess (dt : DataBlockG) : Option Nat :=
  if !dt.IsResult then none
  else
    match dt.Result with
    | GoValue.access r => some r
    | _ => none

/-- `DecodeDataBlockG`. The error of `DecodeDoubleLongUnsigned` is not inspected; it is
still the returned error on the raw-bytes path and is overwritten on the result path.
On the result path the cursor is re-sliced from index 0, on the raw-bytes path the
slices `(*src)[:val]` and `(*src)[val:]` panic when `val` exceeds the remaining length. -/
def DecodeDataBlockG (reg : TagRegistry) (src : List Nat) : Run DataBlockG :=
  match src[0]? with
  | none => Run.panic
  | some f =>
    match DecodeDoubleLongUnsigned (src.drop 1) with
    | (n, err1, src2) =>
      match src2[0]? with
      | none => Run.panic
      | some g =>
        if g ≠ 0 then
          match (src2.drop 1)[0]? with
          | none => Run.panic
          | some b =>
            match GetAccessTag reg b with
            | (r, err) =>
              Run.ret
                { LastBlock := decide (f ≠ 0), BlockNumber := n, IsResult := true,
                  Result := GoValue.access r }
                err ((src2.drop 1).drop 0)
        else
          match DecodeLength (src2.drop 1) with
          | (_, some e, src3) =>
            Run.ret { LastBlock := decide (f ≠ 0), BlockNumber := n, IsResult := false }
              (some e) src3
          | (val, none, src3) =>
            if val > src3.length then Run.panic
            else
              Run.ret
                { LastBlock := decide (f ≠ 0), BlockNumber := n, IsResult := false,
                  Result := GoValue.bytes (src3.take val) }
                err1 (src3.drop val)

/-! ## getDataResult.go: GetDataResult, DataBlockSA, ActionResponseWithOptData -/

/-- Modelled from the spec: an external self-delimiting codec (the application-data
value codec for `DlmsData`, the selective-access-descriptor codec), declared outside the
sources. `Encode` is `encode(v) -> bytes`; `Decode` runs the streaming decoder on a
cursor and reports value, error and the cursor it leaves. -/
structure Codec (α : Type) where
  Encode : α → List Nat
  Decode : List Nat → Run α

/-- Dynamic value of the `interface{}` field `GetDataResult.Value`: `nil`, a `DlmsData`
or an `accessResultTag`. -/
inductive DataValue (D : Type) where
  | nil
  | data (d : D)
  | access (r : Nat)
  deriving DecidableEq, Repr

structure GetDataResult (D : Type) where
  IsData : Bool := false
  Value : DataValue D := DataValue.nil
  deriving DecidableEq, Repr

def CreateGetDataResultAsData {D : Type} (value : D) : GetDataResult D :=
  ⟨true, DataValue.data value⟩

def CreateGetDataResultAsResult {D : Type} (value : Nat) : GetDataResult D :=
  ⟨false, DataValue.access value⟩

/-- `CreateGetDataResult`; `none` is the panic of the default case. -/
def CreateGetDataResult {D : Type} (value : DataValue D) : Option (GetDataResult D) :=
  match value with
  | DataValue.data val => some (CreateGetDataResultAsData val)
  | DataValue.access val => some (CreateGetDataResultAsResult val)
  | DataValue.nil => none

/-- `(*GetDataResult).Encode`; `none` is the panic of a failed type assertion. -/
def GetDataResult.Encode {D : Type} (codec : Codec D) (dt : GetDataResult D) :
    Option (List Nat) :=
  if dt.IsData = true then
    match dt.Value with
    | DataValue.data value => some ([0x1] ++ codec.Encode value)
    | _ => none
  else
    match dt.Value with
    | DataValue.access value => some [0x0, value]
    | _ => none

/-- `(*GetDataResult).ValueAsData`; an error is a panic, with its message. -/
def GetDataResult.ValueAsData {D : Type} (dt : GetDataResult D) : Except String D :=
  if !dt.IsData then Except.error "Value is DataAccessResult!"
  else
    match dt.Value with
    | DataValue.data d => Except.ok d
    | _ => Except.error "interface conversion"

/-- `(*GetDataResult).ValueAsAccess`; an error is a panic, with its message. -/
def GetDataResult.ValueAsAccess {D : Type} (dt : GetDataResult D) : Except String Nat :=
  if dt.IsData then Except.error "Value is DlmsData!"
  else
    match dt.Value with
    | DataValue.access r => Except.ok r
    | _ => Except.error "interface conversion"

def DecodeGetDataResult {D : Type} (reg : TagRegistry) (codec : Codec D) (src : List Nat) :
    Run (GetDataResult D) :=
  match src[0]? with
  | none => Run.panic
  | some b0 =>
    if b0 = 0x0 then
      match src[1]? with
      | none => Run.panic
      | some b1 =>
        match GetAccessTag reg b1 with
        | (r, none) => Run.ret { IsData := false, Value := DataValue.access r } none (src.drop 2)
        | (r, some e) => Run.ret { IsData := false, Value := DataValue.access r } (some e) src
    else
      match codec.Decode (src.drop 1) with
      | Run.ret d err rest => Run.ret { IsData := true, Value := DataValue.data d } err rest
      | Run.panic => Run.panic

structure DataBlockSA where
  LastBlock : Bool := false
  BlockNumber : Nat := 0
  Raw : List Nat := []
  deriving DecidableEq, Repr

/-- `CreateDataBlockSA`; `none` is a panic. -/
def CreateDataBlockSA (lastBlock : Bool) (blockNum : Nat) (result : GoValue) :
    Option DataBlockSA :=
  match result with
  | GoValue.str res =>
    match hexDecode res.toList with
    | none => none
    | some bt => some ⟨lastBlock, blockNum, bt⟩
  | GoValue.bytes res => some ⟨lastBlock, blockNum, res⟩
  | _ => none

def DataBlockSA.Encode (dt : DataBlockSA) : List Nat :=
  (if dt.LastBlock then [0x1] else [0x0]) ++ EncodeDoubleLongUnsigned dt.BlockNumber ++ dt.Raw

structure ActionResponseWithOptData (D : Type) where
  Result : Nat := 0
  ReturnParam : Option (GetDataResult D) := none
  deriving DecidableEq, Repr

def CreateActionResponseWithOptData {D : Type} (result : Nat)
    (returnParam : Option (GetDataResult D)) : ActionResponseWithOptData D :=
  { Result := result, ReturnParam := returnParam }

/-- `(*ActionResponseWithOptData).Encode`; `none` is a panic inside the encoding of the
return parameter. -/
def ActionResponseWithOptData.Encode {D : Type} (codec : Codec D)
    (dt : ActionResponseWithOptData D) : Option (List Nat) :=
  match dt.ReturnParam with
  | none => some [dt.Result, 0x0]
  | some g =>
    match g.Encode codec with
    | none => none
    | some bs => some ([dt.Result, 0x1] ++ bs)

/-! ## attributeDescriptorWithSelection.go -/

/-- Modelled from the spec: the OBIS identifier of package `axdr`, held as the byte
sequence that `Bytes()` returns (6 bytes for a well-formed identifier). -/
structure Obis where
  Bytes : List Nat := [0, 0, 0, 0, 0, 0]
  deriving DecidableEq, Repr

/-- Modelled from the spec: `DecodeObis`, the fixed 6-byte OBIS decoder of package `axdr`.
It takes six bytes and advances the cursor; with fewer than six bytes it returns the
insufficient-length error. The result triple is (value, error, cursor). -/
def DecodeObis (src : List Nat) : Obis × Option DecodeError × List Nat :=
  if src.length < 6 then ({}, some (DecodeError.insufficientLength 6 src.length), src)
  else (⟨src.take 6⟩, none, src.drop 6)

/-- Modelled from the spec: `DecodeLongUnsigned`, the A-XDR primitive
`decode_length_unsigned(cursor) -> (consumed, u16)` of package `axdr`: two bytes
big-endian. The result triple is (value, error, cursor). -/
def DecodeLongUnsigned (src : List Nat) : Nat × Option DecodeError × List Nat :=
  match src with
  | b0 :: b1 :: rest => (b0 * 256 + b1, none, rest)
  | _ => (0, some (DecodeError.insufficientLength 2 src.length), src)

/-- Go conversion `byte(x)` of an `int8`. -/
def int8ToByte (a : Int) : Nat := (a % 256).toNat

/-- Go conversion `int8(b)` of a byte. -/
def byteToInt8 (b : Nat) : Int :=
  if b % 256 < 128 then ((b % 256 : Nat) : Int) else ((b % 256 : Nat) : Int) - 256

structure AttributeDescriptorWithSelection (S : Type) where
  ClassId : Nat := 0
  InstanceId : Obis := {}
  AttributeId : Int := 0
  AccessDescriptor : Option S := none
  deriving DecidableEq, Repr

/-- `CreateAttributeDescriptorWithSelection`; the OBIS string parser `CreateObis` of
package `axdr` is a parameter. -/
def CreateAttributeDescriptorWithSelection {S : Type} (CreateObis : String → Obis)
    (c : Nat) (i : String) (a : Int) (sad : Option S) : AttributeDescriptorWithSelection S :=
  { ClassId := c, InstanceId := CreateObis i, AttributeId := a, AccessDescriptor := sad }

def AttributeDescriptorWithSelection.Encode {S : Type} (sel : Codec S)
    (ad : AttributeDescriptorWithSelection S) : List Nat :=
  [ad.ClassId / 256 % 256, ad.ClassId % 256] ++ ad.InstanceId.Bytes
    ++ [int8ToByte ad.AttributeId]
    ++ (match ad.AccessDescriptor with
        | none => [0]
        | some d => [1] ++ sel.Encode d)

/-- The final statement `(*ori) = (*ori)[len((*ori))-len(src):]` of the decoder, for the
local cursor `src` that is left; a negative index is a panic. -/
def advanceOri {α : Type} (out : α) (ori src : List Nat) : Run α :=
  if src.length > ori.length then Run.panic
  else Run.ret out none (ori.drop (ori.length - src.length))

/-- `DecodeAttributeDescriptorWithSelection`. All decoding is done on a copy `src` of the
caller's cursor `ori`; `*ori` is assigned only by the last statement. -/
def DecodeAttributeDescriptorWithSelection {S : Type} (sel : Codec S) (ori : List Nat) :
    Run (AttributeDescriptorWithSelection S) :=
  if ori.length < 11 then Run.ret {} (some (DecodeError.lengthBelow 11)) ori
  else
    match DecodeLongUnsigned ori with
    | (c, some e, _) => Run.ret { ClassId := c } (some e) ori
    | (c, none, src1) =>
      match DecodeObis src1 with
      | (o, some e, _) => Run.ret { ClassId := c, InstanceId := o } (some e) ori
      | (o, none, src2) =>
        match src2[0]?, src2[1]? with
        | some a, some haveAccDesc =>
          if haveAccDesc = 0x0 then
            advanceOri { ClassId := c, InstanceId := o, AttributeId := byteToInt8 a,
                         AccessDescriptor := none } ori (src2.drop 2)
          else
            match sel.Decode (src2.drop 2) with
            | Run.panic => Run.panic
            | Run.ret _ (some errAcc) _ =>
              Run.ret { ClassId := c, InstanceId := o, AttributeId := byteToInt8 a }
                (some errAcc) ori
            | Run.ret accDesc none src3 =>
              advanceOri { ClassId := c, InstanceId := o, AttributeId := byteToInt8 a,
                           AccessDescriptor := some accDesc } ori src3
        | _, _ => Run.panic

/-! ## A concrete registry for evaluation -/

/-- A tag registry on which the decoders are evaluated at explicit inputs: set-response
tag 0xC5 and the data-access-result codes of DLMS/COSEM. No statement below that ranges
over all registries depends on these values. -/
def sampleRegistry : TagRegistry :=
  { TagSetResponse := 0xC5,
    accessCodes := [0, 1, 2, 3, 4, 9, 11, 12, 13, 14, 15, 16, 17, 18, 19, 250] }

/-- A stand-in for the external codecs on which the decoders are evaluated at explicit
inputs: a value is one byte other than 0xFF, and the decoder has already moved past the
byte when it rejects 0xFF. No statement below that ranges over all codecs depends on it. -/
def sampleCodec : Codec Nat :=
  { Encode := fun v => [v],
    Decode := fun src =>
      match src with
      | [] => Run.ret 0 (some (DecodeError.insufficientLength 1 0)) src
      | b :: rest =>
        if b = 0xFF then Run.ret 0 (some (DecodeError.unrecognizedCode b)) rest
        else Run.ret b none rest }

/-! ## Auxiliary lemmas -/

theorem decodeDoubleLongUnsigned_encode (n : Nat) (t : List Nat) (h : n < 2 ^ 32) :
    DecodeDoubleLongUnsigned (EncodeDoubleLongUnsigned n ++ t) = (n, none, t) := by
  simp only [EncodeDoubleLongUnsigned, DecodeDoubleLongUnsigned, List.cons_append,
    List.nil_append]
  congr 1
  omega

theorem getAccessTag_of_mem (reg : TagRegistry) (r : Nat) (h : r ∈ reg.accessCodes) :
    GetAccessTag reg r = (r, none) := by
  simp [GetAccessTag, h]

theorem getAccessTag_of_not_mem (reg : TagRegistry) (b : Nat) (h : b ∉ reg.accessCodes) :
    GetAccessTag reg b = (0, some (DecodeError.unrecognizedCode b)) := by
  simp [GetAccessTag, h]

/-! ## C1: round trip of SetResponseNormal -/

/-- C1. For every invoke-priority byte `p`, every access-result code `r` of the registry
and every trailing byte sequence `t`, decoding `Encode(SetResponseNormal{p, r}) ++ t`
succeeds without error, returns exactly `{InvokePriority = p, Result = r}` and leaves the
cursor equal to `t`; the encoding has exactly 4 bytes. -/
theorem C1_setResponseNormal_roundtrip (reg : TagRegistry) (p r : Nat) (t : List Nat)
    (hr : r ∈ reg.accessCodes) :
    DecodeSetResponseNormal reg ((CreateSetResponseNormal p r).Encode reg ++ t)
        = Run.ret { InvokePriority := p, Result := r } none t
      ∧ ((CreateSetResponseNormal p r).Encode reg).length = 4 := by
  refine ⟨?_, rfl⟩
  simp [DecodeSetResponseNormal, SetResponseNormal.Encode, CreateSetResponseNormal,
    getAccessTag_of_mem reg r hr]

/-- Witness of C1 on the sample registry: priority 0x81, code 3, two trailing bytes. -/
theorem C1_setResponseNormal_roundtrip_witness :
    3 ∈ sampleRegistry.accessCodes
      ∧ DecodeSetResponseNormal sampleRegistry
          ((CreateSetResponseNormal 0x81 3).Encode sampleRegistry ++ [0xAA, 0xBB])
        = Run.ret { InvokePriority := 0x81, Result := 3 } none [0xAA, 0xBB]
      ∧ ((CreateSetResponseNormal 0x81 3).Encode sampleRegistry).length = 4 :=
  ⟨by decide, C1_setResponseNormal_roundtrip sampleRegistry 0x81 3 [0xAA, 0xBB] (by decide)⟩

/-! ## C2, C3: result lists of 1 to 255 codes -/

theorem decodeResultList_codes (reg : TagRegistry) (L : List Nat)
    (hL : ∀ r ∈ L, r ∈ reg.accessCodes) (acc t : List Nat) :
    decodeResultList reg L.length acc (L ++ t) = some (acc ++ L, none, t) := by
  induction L generalizing acc with
  | nil => simp [decodeResultList]
  | cons r L ih =>
    have hr : r ∈ reg.accessCodes := hL r (List.mem_cons_self r L)
    have hL2 : ∀ x ∈ L, x ∈ reg.accessCodes := fun x hx => hL x (List.mem_cons_of_mem r hx)
    simp [decodeResultList, getAccessTag_of_mem reg r hr, ih hL2]

/-- C2. For every invoke-priority byte `p` and every list `L` of registry access-result
codes with `1 ≤ len(L) ≤ 255`, `CreateSetResponseWithList` succeeds, and decoding the
encoding of the created value followed by arbitrary trailing bytes `t` returns, without
error, the value with the same InvokePriority, `ResultCount = len(L)` and
`ResultList = L`, leaving the cursor equal to `t`. -/
theorem C2_setResponseWithList_roundtrip (reg : TagRegistry) (p : Nat) (L t : List Nat)
    (h1 : 1 ≤ L.length) (h255 : L.length ≤ 255) (hL : ∀ r ∈ L, r ∈ reg.accessCodes) :
    ∃ v, CreateSetResponseWithList p L = some v
      ∧ DecodeSetResponseWithList reg (v.Encode reg ++ t)
        = Run.ret { InvokePriority := p, ResultCount := L.length, ResultList := L } none t := by
  have hmod : L.length % 256 = L.length := Nat.mod_eq_of_lt (by omega)
  refine ⟨{ InvokePriority := p, ResultCount := L.length, ResultList := L }, ?_, ?_⟩
  · have hn : ¬ (L.length < 1 ∨ L.length > 255) := by omega
    simp only [CreateSetResponseWithList, if_neg hn, hmod]
  · simp [DecodeSetResponseWithList, SetResponseWithList.Encode,
      decodeResultList_codes reg L hL [] t]

/-- Witness of C2 on the sample registry: the one-element list `[0]` (lower boundary). -/
theorem C2_setResponseWithList_roundtrip_witness :
    ∃ v, CreateSetResponseWithList 0x40 [0] = some v
      ∧ DecodeSetResponseWithList sampleRegistry (v.Encode sampleRegistry ++ [0xFF])
        = Run.ret { InvokePriority := 0x40, ResultCount := 1, ResultList := [0] } none [0xFF] :=
  C2_setResponseWithList_roundtrip sampleRegistry 0x40 [0] [0xFF] (by decide) (by decide)
    (by decide)

/-- C3. `CreateSetResponseWithList` and `CreateSetResponseLastDataBlockWithList` fail
exactly when the supplied list has 0 or more than 255 elements, and succeed exactly when
its length is in [1, 255]; the value they then return stores `ResultCount = len(list)`
(no wrap-around) and the supplied list itself (no truncation). -/
theorem C3_create_list_bound (p n : Nat) (L : List Nat) :
    (CreateSetResponseWithList p L = none ↔ (L.length = 0 ∨ 255 < L.length))
      ∧ (CreateSetResponseWithList p L
            = some { InvokePriority := p, ResultCount := L.length, ResultList := L }
          ↔ (1 ≤ L.length ∧ L.length ≤ 255))
      ∧ (CreateSetResponseLastDataBlockWithList p L n = none
          ↔ (L.length = 0 ∨ 255 < L.length))
      ∧ (CreateSetResponseLastDataBlockWithList p L n
            = some { InvokePriority := p, ResultCount := L.length, ResultList := L,
                     BlockNum := n }
          ↔ (1 ≤ L.length ∧ L.length ≤ 255)) := by
  by_cases h : L.length < 1 ∨ L.length > 255
  · have h2 : ¬ (1 ≤ L.length ∧ L.length ≤ 255) := by omega
    have h3 : L.length = 0 ∨ 255 < L.length := by omega
    simp only [CreateSetResponseWithList, CreateSetResponseLastDataBlockWithList, if_pos h,
      h2, h3, reduceCtorEq, and_self]
  · have h2 : 1 ≤ L.length ∧ L.length ≤ 255 := by omega
    have h3 : ¬ (L.length = 0 ∨ 255 < L.length) := by omega
    have hmod : L.length % 256 = L.length := Nat.mod_eq_of_lt (by omega)
    simp only [CreateSetResponseWithList, CreateSetResponseLastDataBlockWithList, if_neg h,
      h2, h3, hmod, reduceCtorEq, and_self]

/-! ## C4 to C6, C8: DataBlockG -/

/-- Round trip of the raw-bytes DataBlockG for payloads of at most 127 bytes, where the
single length byte written by `Encode` is also a one-byte A-XDR length. -/
theorem dataBlockG_roundtrip_short (reg : TagRegistry) (flag : Bool) (n : Nat)
    (payload t : List Nat) (hn : n < 2 ^ 32) (hk : payload.length < 128) :
    ∃ v enc, CreateDataBlockGAsData flag n (GoValue.bytes payload) = some v
      ∧ v.Encode = some enc
      ∧ DecodeDataBlockG reg (enc ++ t)
        = Run.ret { LastBlock := flag, BlockNumber := n, IsResult := false,
                    Result := GoValue.bytes payload } none t := by
  have hmod : payload.length % 256 = payload.length := Nat.mod_eq_of_lt (by omega)
  refine ⟨⟨flag, n, false, GoValue.bytes payload⟩, _, rfl, rfl, ?_⟩
  have hdl := decodeDoubleLongUnsigned_encode n ([0, payload.length] ++ payload ++ t) hn
  cases flag <;>
    simp [DecodeDataBlockG, hmod, hdl, DecodeLength, hk] at hdl ⊢

/-- When the length byte of a raw-bytes block is `0x81`, `DecodeDataBlockG` takes the
next byte `x` as the payload length. -/
theorem decodeDataBlockG_length_0x81 (reg : TagRegistry) (x : Nat) (rest : List Nat)
    (hx : x ≤ rest.length) (hb : x < 256) :
    DecodeDataBlockG reg ([0, 0, 0, 0, 0, 0, 129] ++ x :: rest)
      = Run.ret { LastBlock := false, BlockNumber := 0, IsResult := false,
                  Result := GoValue.bytes (rest.take x) } none (rest.drop x) := by
  have h : ¬ rest.length < x := by omega
  have hlt : x % 18446744073709551616 = x := Nat.mod_eq_of_lt (by omega)
  simp [DecodeDataBlockG, DecodeDoubleLongUnsigned, DecodeLength, beValue, h, hlt]

/-- C4 (evaluation at a failing input). A raw-bytes block with a payload of 129 bytes
`0x01` encodes with the single length byte `0x81`; `DecodeDataBlockG` reads that byte as
"one length byte follows", takes the first payload byte as the length, and returns the
1-byte payload `[0x01]` with 127 payload bytes still in the cursor. -/
theorem C4_dataBlockG_long_payload_not_roundtrip (reg : TagRegistry) :
    (CreateDataBlockGAsData false 0 (GoValue.bytes (List.replicate 129 1))).bind
        DataBlockG.Encode
      = some ([0, 0, 0, 0, 0, 0, 129] ++ List.replicate 129 1)
    ∧ DecodeDataBlockG reg ([0, 0, 0, 0, 0, 0, 129] ++ List.replicate 129 1)
      = Run.ret { LastBlock := false, BlockNumber := 0, IsResult := false,
                  Result := GoValue.bytes [1] } none (List.replicate 127 1) := by
  constructor
  · simp only [CreateDataBlockGAsData, Option.some_bind, DataBlockG.Encode,
      EncodeDoubleLongUnsigned, List.length_replicate]
    rfl
  · rw [List.replicate_succ 1 128,
      decodeDataBlockG_length_0x81 reg 1 (List.replicate 128 1) (by simp) (by decide),
      List.take_replicate, List.drop_replicate]
    rfl

/-- On the access-result path `DecodeDataBlockG` leaves the cursor at the result-code
byte: after flag, block number and the result marker, the code byte `b` is read but the
cursor is re-sliced from index 0. -/
theorem decodeDataBlockG_result_cursor (reg : TagRegistry) (f b0 b1 b2 b3 g b : Nat)
    (t : List Nat) (hg : g ≠ 0) :
    DecodeDataBlockG reg (f :: b0 :: b1 :: b2 :: b3 :: g :: b :: t)
      = Run.ret { LastBlock := decide (f ≠ 0),
                  BlockNumber := ((b0 * 256 + b1) * 256 + b2) * 256 + b3,
                  IsResult := true, Result := GoValue.access (GetAccessTag reg b).1 }
          (GetAccessTag reg b).2 (b :: t) := by
  simp [DecodeDataBlockG, DecodeDoubleLongUnsigned, hg]

/-- C5 (evaluation at a failing input). The access-result block
`CreateDataBlockGAsResult(true, 7, 3)` encodes to the 7 bytes `01 00 00 00 07 01 03`;
decoding them followed by the trailing byte `0xEE` returns `IsResult = true` and
`Result = 3`, but the cursor is left at `[0x03, 0xEE]`: only 6 bytes are consumed. -/
theorem C5_dataBlockG_result_byte_not_consumed :
    (CreateDataBlockGAsResult true 7 3).Encode = some [1, 0, 0, 0, 7, 1, 3]
    ∧ DecodeDataBlockG sampleRegistry ([1, 0, 0, 0, 7, 1, 3] ++ [0xEE])
      = Run.ret { LastBlock := true, BlockNumber := 7, IsResult := true,
                  Result := GoValue.access 3 } none [3, 0xEE] := by
  constructor
  · rfl
  · decide

/-- C6. For every flag, block number `n` and payload of length `k ≤ 255`, the raw-bytes
block encodes to `[flag] ++ BE4(n) ++ [0x00, k] ++ payload`; for every code the
access-result block encodes to `[flag] ++ BE4(n) ++ [0x01, code]`; the flag byte is 0x01
for a last block and 0x00 otherwise; last block, number 7, payload `[0xAA, 0xBB]` gives
`01 00 00 00 07 00 02 AA BB`. -/
theorem C6_dataBlockG_encode_layout (flag : Bool) (n code : Nat) (payload : List Nat)
    (hk : payload.length ≤ 255) :
    (CreateDataBlockGAsData flag n (GoValue.bytes payload)).bind DataBlockG.Encode
        = some ([if flag then 0x01 else 0x00]
            ++ [n / 2 ^ 24 % 256, n / 2 ^ 16 % 256, n / 2 ^ 8 % 256, n % 256]
            ++ [0x00, payload.length] ++ payload)
      ∧ (CreateDataBlockGAsResult flag n code).Encode
        = some ([if flag then 0x01 else 0x00]
            ++ [n / 2 ^ 24 % 256, n / 2 ^ 16 % 256, n / 2 ^ 8 % 256, n % 256]
            ++ [0x01, code])
      ∧ (CreateDataBlockGAsData true 7 (GoValue.bytes [0xAA, 0xBB])).bind DataBlockG.Encode
        = some [0x01, 0x00, 0x00, 0x00, 0x07, 0x00, 0x02, 0xAA, 0xBB] := by
  have hmod : payload.length % 256 = payload.length := Nat.mod_eq_of_lt (by omega)
  refine ⟨?_, ?_, by decide⟩
  · cases flag <;>
      simp [CreateDataBlockGAsData, DataBlockG.Encode, EncodeDoubleLongUnsigned, hmod]
  · cases flag <;>
      simp [CreateDataBlockGAsResult, DataBlockG.Encode, EncodeDoubleLongUnsigned]

/-- Witness of C6: not last, block number 0x01020304, a three-byte payload, code 4. -/
theorem C6_dataBlockG_encode_layout_witness :
    (CreateDataBlockGAsData false 0x01020304 (GoValue.bytes [9, 8, 7])).bind DataBlockG.Encode
        = some [0, 1, 2, 3, 4, 0, 3, 9, 8, 7]
      ∧ (CreateDataBlockGAsResult false 0x01020304 4).Encode = some [0, 1, 2, 3, 4, 1, 4] := by
  have h := C6_dataBlockG_encode_layout false 0x01020304 4 [9, 8, 7] (by decide)
  exact ⟨h.1, h.2.1⟩

/-- C8 (evaluation at a failing input). Flag, block number 7, the not-a-result byte and a
length prefix declaring 2 bytes, followed by the single byte `0xAA`: `DecodeDataBlockG`
does not return an error, the slice of 2 bytes out of 1 panics. -/
theorem C8_dataBlockG_short_payload_panics (reg : TagRegistry) :
    DecodeDataBlockG reg [1, 0, 0, 0, 7, 0, 2, 0xAA] = Run.panic := by
  rfl

/-- On the raw-bytes path with a one-byte length prefix `k`, `DecodeDataBlockG` panics
exactly when fewer than `k` bytes follow, and never reports an error there. -/
theorem decodeDataBlockG_raw_short (reg : TagRegistry) (f b0 b1 b2 b3 k : Nat)
    (rest : List Nat) (hk : k < 128) (hshort : rest.length < k) :
    DecodeDataBlockG reg (f :: b0 :: b1 :: b2 :: b3 :: 0 :: k :: rest) = Run.panic := by
  simp [DecodeDataBlockG, DecodeDoubleLongUnsigned, DecodeLength, hk, hshort]

/-! ## C7, C9, C10: tags and truncation of the set-response decoders -/

/-- C7 (evaluation at a failing input). The 3-byte prefix of every SetResponseNormal
encoding makes `DecodeSetResponseNormal` panic on the index `(*src)[3]` instead of
returning an error. -/
theorem C7_setResponseNormal_prefix_panics (reg : TagRegistry) (p r : Nat) :
    ((CreateSetResponseNormal p r).Encode reg).take 3 = [reg.TagSetResponse, 0x1, p]
      ∧ DecodeSetResponseNormal reg (((CreateSetResponseNormal p r).Encode reg).take 3)
        = Run.panic := by
  constructor
  · rfl
  · simp [DecodeSetResponseNormal, SetResponseNormal.Encode, CreateSetResponseNormal,
      TagSetResponseNormal]

/-- No input makes `DecodeSetResponseNormal` return an insufficient-length error: on
fewer than 4 bytes it panics or reports a wrong tag. -/
theorem decodeSetResponseNormal_short (reg : TagRegistry) (src : List Nat)
    (h : src.length < 4) :
    DecodeSetResponseNormal reg src = Run.panic
      ∨ ∃ found expected,
          DecodeSetResponseNormal reg src
            = Run.ret {} (some (DecodeError.wrongTag 0 found expected)) src := by
  match src, h with
  | [], _ => left; rfl
  | [a], _ =>
    by_cases ha : a = reg.TagSetResponse
    · left; simp [DecodeSetResponseNormal, ha]
    · right; exact ⟨a, reg.TagSetResponse, by simp [DecodeSetResponseNormal, ha, ErrWrongTag]⟩
  | [a, b], _ =>
    by_cases ha : a = reg.TagSetResponse
    · by_cases hb : b = TagSetResponseNormal
      · left; simp [DecodeSetResponseNormal, ha, hb]
      · right
        exact ⟨b, TagSetResponseNormal, by simp [DecodeSetResponseNormal, ha, hb, ErrWrongTag]⟩
    · right; exact ⟨a, reg.TagSetResponse, by simp [DecodeSetResponseNormal, ha, ErrWrongTag]⟩
  | [a, b, c], _ =>
    by_cases ha : a = reg.TagSetResponse
    · by_cases hb : b = TagSetResponseNormal
      · left; simp [DecodeSetResponseNormal, ha, hb]
      · right
        exact ⟨b, TagSetResponseNormal, by simp [DecodeSetResponseNormal, ha, hb, ErrWrongTag]⟩
    · right; exact ⟨a, reg.TagSetResponse, by simp [DecodeSetResponseNormal, ha, ErrWrongTag]⟩
  | _ :: _ :: _ :: _ :: _, h => simp at h; omega

/-- C9. For every input of at least 2 bytes `b0, b1, ...`: when `b0` differs from
`TagSetResponse`, `SetResponse.Decode` returns the wrong-tag error carrying position 0,
`b0` and `TagSetResponse`; when `b0` is `TagSetResponse` but `b1` is none of the five
variant tags 0x01..0x05, it returns the tag-not-recognized error carrying `b1`. In both
cases the returned PDU is `nil` and the cursor is unchanged. -/
theorem C9_setResponse_decode_rejects_tags (reg : TagRegistry) (b0 b1 : Nat) (rest : List Nat)
    (h : b0 ≠ reg.TagSetResponse
      ∨ b1 ∉ [TagSetResponseNormal, TagSetResponseDataBlock, TagSetResponseLastDataBlock,
              TagSetResponseLastDataBlockWithList, TagSetResponseWithList]) :
    SetResponse.Decode reg (b0 :: b1 :: rest)
      = Run.ret none
          (some (if b0 ≠ reg.TagSetResponse then DecodeError.wrongTag 0 b0 reg.TagSetResponse
                 else DecodeError.tagNotRecognized b1))
          (b0 :: b1 :: rest) := by
  by_cases h0 : b0 = reg.TagSetResponse
  · have h1 : b1 ∉ [TagSetResponseNormal, TagSetResponseDataBlock,
        TagSetResponseLastDataBlock, TagSetResponseLastDataBlockWithList,
        TagSetResponseWithList] := by
      rcases h with h | h
      · exact absurd h0 h
      · exact h
    simp only [List.mem_cons, List.mem_singleton, List.not_mem_nil, or_false, not_or] at h1
    obtain ⟨n1, n2, n3, n4, n5⟩ := h1
    simp [SetResponse.Decode, h0, n1, n2, n3, n4, n5]
  · simp [SetResponse.Decode, h0, ErrWrongTag]

/-- Witness of C9 on the sample registry: a wrong outer tag (0xC4 before a valid inner
tag) and a right outer tag before the unknown inner tag 0x06. -/
theorem C9_setResponse_decode_rejects_tags_witness :
    SetResponse.Decode sampleRegistry [0xC4, 0x01, 0x00, 0x00]
        = Run.ret none (some (DecodeError.wrongTag 0 0xC4 0xC5)) [0xC4, 0x01, 0x00, 0x00]
      ∧ SetResponse.Decode sampleRegistry [0xC5, 0x06, 0x00, 0x00]
        = Run.ret none (some (DecodeError.tagNotRecognized 0x06)) [0xC5, 0x06, 0x00, 0x00] :=
  ⟨C9_setResponse_decode_rejects_tags sampleRegistry 0xC4 0x01 [0x00, 0x00]
      (Or.inl (by decide)),
    C9_setResponse_decode_rejects_tags sampleRegistry 0xC5 0x06 [0x00, 0x00]
      (Or.inr (by decide))⟩

/-- C10 (evaluation at failing inputs). On an input whose first byte is `TagSetResponse`
and whose second byte is 0x07, each of the five shape decoders returns a wrong-tag error
with position 0 (not 1), and `DecodeSetResponseLastDataBlock` reports the expected tag
0x02 of the DataBlock shape instead of its own tag 0x03. -/
theorem C10_shape_decoders_wrong_tag_error (reg : TagRegistry) (rest : List Nat) :
    DecodeSetResponseNormal reg (reg.TagSetResponse :: 0x07 :: rest)
        = Run.ret {} (some (DecodeError.wrongTag 0 0x07 0x01)) (reg.TagSetResponse :: 0x07 :: rest)
      ∧ DecodeSetResponseDataBlock reg (reg.TagSetResponse :: 0x07 :: rest)
        = Run.ret {} (some (DecodeError.wrongTag 0 0x07 0x02)) (reg.TagSetResponse :: 0x07 :: rest)
      ∧ DecodeSetResponseLastDataBlock reg (reg.TagSetResponse :: 0x07 :: rest)
        = Run.ret {} (some (DecodeError.wrongTag 0 0x07 0x02)) (reg.TagSetResponse :: 0x07 :: rest)
      ∧ DecodeSetResponseLastDataBlockWithList reg (reg.TagSetResponse :: 0x07 :: rest)
        = Run.ret {} (some (DecodeError.wrongTag 0 0x07 0x04)) (reg.TagSetResponse :: 0x07 :: rest)
      ∧ DecodeSetResponseWithList reg (reg.TagSetResponse :: 0x07 :: rest)
        = Run.ret {} (some (DecodeError.wrongTag 0 0x07 0x05))
            (reg.TagSetResponse :: 0x07 :: rest) := by
  simp [DecodeSetResponseNormal, DecodeSetResponseDataBlock, DecodeSetResponseLastDataBlock,
    DecodeSetResponseLastDataBlockWithList, DecodeSetResponseWithList, ErrWrongTag,
    TagSetResponseNormal, TagSetResponseDataBlock, TagSetResponseLastDataBlock,
    TagSetResponseLastDataBlockWithList, TagSetResponseWithList]

/-- For every second byte `b` other than the shape's own tag, the wrong-tag error of each
shape decoder carries position 0, `b`, and the tag named in that decoder's call of
`ErrWrongTag`. -/
theorem shape_decoders_wrong_tag_general (reg : TagRegistry) (b : Nat) (rest : List Nat) :
    (b ≠ TagSetResponseNormal →
        DecodeSetResponseNormal reg (reg.TagSetResponse :: b :: rest)
          = Run.ret {} (some (DecodeError.wrongTag 0 b TagSetResponseNormal))
              (reg.TagSetResponse :: b :: rest))
      ∧ (b ≠ TagSetResponseDataBlock →
        DecodeSetResponseDataBlock reg (reg.TagSetResponse :: b :: rest)
          = Run.ret {} (some (DecodeError.wrongTag 0 b TagSetResponseDataBlock))
              (reg.TagSetResponse :: b :: rest))
      ∧ (b ≠ TagSetResponseLastDataBlock →
        DecodeSetResponseLastDataBlock reg (reg.TagSetResponse :: b :: rest)
          = Run.ret {} (some (DecodeError.wrongTag 0 b TagSetResponseDataBlock))
              (reg.TagSetResponse :: b :: rest))
      ∧ (b ≠ TagSetResponseLastDataBlockWithList →
        DecodeSetResponseLastDataBlockWithList reg (reg.TagSetResponse :: b :: rest)
          = Run.ret {} (some (DecodeError.wrongTag 0 b TagSetResponseLastDataBlockWithList))
              (reg.TagSetResponse :: b :: rest))
      ∧ (b ≠ TagSetResponseWithList →
        DecodeSetResponseWithList reg (reg.TagSetResponse :: b :: rest)
          = Run.ret {} (some (DecodeError.wrongTag 0 b TagSetResponseWithList))
              (reg.TagSetResponse :: b :: rest)) := by
  refine ⟨?_, ?_, ?_, ?_, ?_⟩ <;> intro hb
  · simp [DecodeSetResponseNormal, ErrWrongTag, hb]
  · simp [DecodeSetResponseDataBlock, ErrWrongTag, hb]
  · simp [DecodeSetResponseLastDataBlock, ErrWrongTag, hb]
  · simp [DecodeSetResponseLastDataBlockWithList, ErrWrongTag, hb]
  · simp [DecodeSetResponseWithList, ErrWrongTag, hb]

/-! ## C11: decoded result lists -/

theorem decodeResultList_length (reg : TagRegistry) (n : Nat) (acc src l rest : List Nat)
    (h : decodeResultList reg n acc src = some (l, none, rest)) :
    l.length = acc.length + n := by
  induction n generalizing acc src with
  | zero =>
    simp only [decodeResultList, Option.some.injEq, Prod.mk.injEq, true_and] at h
    rw [← h.1]; rfl
  | succ n ih =>
    cases src with
    | nil => simp [decodeResultList] at h
    | cons b src =>
      by_cases hb : b ∈ reg.accessCodes
      · simp only [decodeResultList, List.getElem?_cons_zero, getAccessTag_of_mem reg b hb,
          List.drop_succ_cons, List.drop_zero] at h
        rw [ih _ _ h, List.length_append, List.length_singleton]
        omega
      · simp [decodeResultList, getAccessTag_of_not_mem reg b hb] at h

/-- Whenever `DecodeSetResponseWithList` succeeds, the returned list has as many elements
as the count byte (the fourth byte) says; nothing excludes the count 0. -/
theorem decodeSetResponseWithList_length (reg : TagRegistry) (src rest : List Nat)
    (out : SetResponseWithList) (h : DecodeSetResponseWithList reg src = Run.ret out none rest) :
    src[3]? = some out.ResultCount ∧ out.ResultList.length = out.ResultCount := by
  unfold DecodeSetResponseWithList at h
  split at h
  · exact absurd h (by simp)
  · split at h
    · simp at h
    · split at h
      · exact absurd h (by simp)
      · split at h
        · simp at h
        · split at h
          · rename_i b2 b3 h2 h3
            split at h
            · exact absurd h (by simp)
            · rename_i l err rest2 hl
              simp only [Run.ret.injEq] at h
              obtain ⟨ho, he, _⟩ := h
              subst he
              have := decodeResultList_length reg b3 [] _ l rest2 hl
              subst ho
              simp [h3, this]
          · exact absurd h (by simp)

/-- C11 (evaluation at failing inputs). With the count byte 0 both list decoders succeed
and return a value whose result list is empty, although the constructors refuse the
empty list. -/
theorem C11_decoded_result_list_may_be_empty (reg : TagRegistry) (p b0 b1 b2 b3 : Nat)
    (t : List Nat) :
    DecodeSetResponseWithList reg (reg.TagSetResponse :: 0x05 :: p :: 0 :: t)
        = Run.ret { InvokePriority := p, ResultCount := 0, ResultList := [] } none t
      ∧ DecodeSetResponseLastDataBlockWithList reg
          (reg.TagSetResponse :: 0x04 :: p :: 0 :: b0 :: b1 :: b2 :: b3 :: t)
        = Run.ret { InvokePriority := p, ResultCount := 0, ResultList := [],
                    BlockNum := ((b0 * 256 + b1) * 256 + b2) * 256 + b3 } none t
      ∧ CreateSetResponseWithList p [] = none
      ∧ CreateSetResponseLastDataBlockWithList p [] b3 = none := by
  refine ⟨?_, ?_, rfl, rfl⟩
  · simp [DecodeSetResponseWithList, TagSetResponseWithList, decodeResultList]
  · simp [DecodeSetResponseLastDataBlockWithList, TagSetResponseLastDataBlockWithList,
      decodeResultList, DecodeDoubleLongUnsigned]

/-! ## C12, C13: GetDataResult -/

/-- C12. On a value built by `CreateGetDataResultAsResult`, `ValueAsData` fails with the
panic "Value is DataAccessResult!" and `ValueAsAccess` returns the stored code; on a value
built by `CreateGetDataResultAsData`, `ValueAsAccess` fails with the panic
"Value is DlmsData!" and `ValueAsData` returns the stored data value. -/
theorem C12_getDataResult_union_discipline (D : Type) (r : Nat) (d : D) :
    (CreateGetDataResultAsResult r : GetDataResult D).ValueAsData
        = Except.error "Value is DataAccessResult!"
      ∧ (CreateGetDataResultAsResult r : GetDataResult D).ValueAsAccess = Except.ok r
      ∧ (CreateGetDataResultAsData d).ValueAsAccess = Except.error "Value is DlmsData!"
      ∧ (CreateGetDataResultAsData d).ValueAsData = Except.ok d :=
  ⟨rfl, rfl, rfl, rfl⟩

/-- C13. On the cursor `[0x00, c] ++ t`, `DecodeGetDataResult` succeeds exactly when `c`
is a code of the access-result registry. It then returns `IsData = false` with
`Value = c` (the value that `CreateGetDataResultAsResult c` builds, whose encoding is
`[0x00, c]`) and leaves the cursor equal to `t`; otherwise it returns the registry error
and leaves the cursor unchanged. -/
theorem C13_getDataResult_access_path (D : Type) (reg : TagRegistry) (codec : Codec D)
    (c : Nat) (t : List Nat) :
    DecodeGetDataResult reg codec ([0x00, c] ++ t)
        = (if c ∈ reg.accessCodes then
            Run.ret (CreateGetDataResultAsResult c) none t
           else
            Run.ret { IsData := false, Value := DataValue.access 0 }
              (some (DecodeError.unrecognizedCode c)) ([0x00, c] ++ t))
      ∧ ((∃ out rest, DecodeGetDataResult reg codec ([0x00, c] ++ t) = Run.ret out none rest)
          ↔ c ∈ reg.accessCodes)
      ∧ (CreateGetDataResultAsResult c : GetDataResult D).Encode codec = some [0x00, c] := by
  have key : DecodeGetDataResult reg codec ([0x00, c] ++ t)
      = (if c ∈ reg.accessCodes then
          Run.ret (CreateGetDataResultAsResult c) none t
         else
          Run.ret { IsData := false, Value := DataValue.access 0 }
            (some (DecodeError.unrecognizedCode c)) ([0x00, c] ++ t)) := by
    by_cases hc : c ∈ reg.accessCodes
    · simp [DecodeGetDataResult, getAccessTag_of_mem reg c hc, hc, CreateGetDataResultAsResult]
    · simp [DecodeGetDataResult, getAccessTag_of_not_mem reg c hc, hc]
  refine ⟨key, ?_, rfl⟩
  rw [key]
  by_cases hc : c ∈ reg.accessCodes
  · simp [hc]
  · simp [hc]

/-! ## C14 to C16: AttributeDescriptorWithSelection -/

theorem byteToInt8_int8ToByte (a : Int) (hlo : -128 ≤ a) (hhi : a ≤ 127) :
    byteToInt8 (int8ToByte a) = a := by
  unfold byteToInt8 int8ToByte
  have h1 : 0 ≤ a % 256 := Int.emod_nonneg a (by decide)
  have h2 : a % 256 < 256 := Int.emod_lt_of_pos a (by decide)
  have h3 : (((a % 256).toNat : Nat) : Int) = a % 256 := Int.toNat_of_nonneg h1
  have h4 : (a % 256).toNat % 256 = (a % 256).toNat := Nat.mod_eq_of_lt (by omega)
  rw [h4]
  split <;> omega

/-- C14 (counterexample). The descriptor with class id 1, OBIS `0.0.1.0.0.255`, attribute
id 2 and no access descriptor encodes to 10 bytes, not 11. -/
theorem C14_encode_length_is_not_11 :
    (AttributeDescriptorWithSelection.Encode sampleCodec
        { ClassId := 1, InstanceId := ⟨[0, 0, 1, 0, 0, 255]⟩, AttributeId := 2,
          AccessDescriptor := none })
      = [0, 1, 0, 0, 1, 0, 0, 255, 2, 0]
    ∧ ¬ (AttributeDescriptorWithSelection.Encode sampleCodec
          { ClassId := 1, InstanceId := ⟨[0, 0, 1, 0, 0, 255]⟩, AttributeId := 2,
            AccessDescriptor := none }).length = 11 + 0 := by
  constructor
  · rfl
  · decide

/-- C14 (amended). For every descriptor with a 6-byte OBIS encoding, the length of
`Encode()` is 10 plus the length of the selective-access encoding, which counts as 0 when
`AccessDescriptor` is absent: 2 bytes class id, 6 bytes OBIS, 1 byte attribute id and
1 presence byte. -/
theorem C14_encode_length (S : Type) (sel : Codec S) (d : AttributeDescriptorWithSelection S)
    (hobis : d.InstanceId.Bytes.length = 6) :
    (d.Encode sel).length
      = 10 + (match d.AccessDescriptor with
              | none => 0
              | some a => (sel.Encode a).length) := by
  unfold AttributeDescriptorWithSelection.Encode
  cases h : d.AccessDescriptor with
  | none => simp [hobis]
  | some a => simp [hobis]; omega

/-- Witness of the amended C14: a descriptor with a one-byte access descriptor encodes to
11 bytes. -/
theorem C14_encode_length_witness :
    (AttributeDescriptorWithSelection.Encode sampleCodec
        { ClassId := 1, InstanceId := ⟨[0, 0, 1, 0, 0, 255]⟩, AttributeId := 2,
          AccessDescriptor := some 7 }).length = 10 + 1 :=
  C14_encode_length Nat sampleCodec
    { ClassId := 1, InstanceId := ⟨[0, 0, 1, 0, 0, 255]⟩, AttributeId := 2,
      AccessDescriptor := some 7 } (by decide)

/-- Round trip of a descriptor without access descriptor when at least one trailing byte
follows the encoding. -/
theorem attributeDescriptor_roundtrip_trailing (S : Type) (sel : Codec S) (c : Nat) (a : Int)
    (o0 o1 o2 o3 o4 o5 x : Nat) (t : List Nat) (hc : c < 2 ^ 16) (hlo : -128 ≤ a)
    (hhi : a ≤ 127) :
    DecodeAttributeDescriptorWithSelection sel
        (AttributeDescriptorWithSelection.Encode sel
            { ClassId := c, InstanceId := ⟨[o0, o1, o2, o3, o4, o5]⟩, AttributeId := a,
              AccessDescriptor := none } ++ x :: t)
      = Run.ret { ClassId := c, InstanceId := ⟨[o0, o1, o2, o3, o4, o5]⟩, AttributeId := a,
                  AccessDescriptor := none } none (x :: t) := by
  have hcc : c / 256 % 256 * 256 + c % 256 = c := by omega
  simp +arith [DecodeAttributeDescriptorWithSelection, AttributeDescriptorWithSelection.Encode,
    DecodeLongUnsigned, DecodeObis, advanceOri, byteToInt8_int8ToByte a hlo hhi, hcc]

/-- C15 (evaluation at failing inputs). The encoding of a descriptor without access
descriptor, with no trailing byte, has 10 bytes; `DecodeAttributeDescriptorWithSelection`
rejects it with the error "byte slice length must be at least 11 bytes" and leaves the
cursor where it was. -/
theorem C15_roundtrip_fails_without_trailing (S : Type) (sel : Codec S) (c : Nat) (a : Int)
    (o0 o1 o2 o3 o4 o5 : Nat) :
    DecodeAttributeDescriptorWithSelection sel
        (AttributeDescriptorWithSelection.Encode sel
            { ClassId := c, InstanceId := ⟨[o0, o1, o2, o3, o4, o5]⟩, AttributeId := a,
              AccessDescriptor := none } ++ [])
      = Run.ret {} (some (DecodeError.lengthBelow 11))
          (AttributeDescriptorWithSelection.Encode sel
            { ClassId := c, InstanceId := ⟨[o0, o1, o2, o3, o4, o5]⟩, AttributeId := a,
              AccessDescriptor := none }) := by
  simp [DecodeAttributeDescriptorWithSelection, AttributeDescriptorWithSelection.Encode]

/-- C16. Whenever `DecodeAttributeDescriptorWithSelection` returns an error, the caller's
cursor after the call is the cursor before the call; an input with fewer than 11 bytes is
rejected by the length guard, before any delegated decoder runs. -/
theorem C16_decode_failure_atomic (S : Type) (sel : Codec S) (ori : List Nat) :
    (ori.length < 11 →
        DecodeAttributeDescriptorWithSelection sel ori
          = Run.ret {} (some (DecodeError.lengthBelow 11)) ori)
      ∧ (∀ out e rest,
          DecodeAttributeDescriptorWithSelection sel ori = Run.ret out (some e) rest →
            rest = ori) := by
  constructor
  · intro h
    simp [DecodeAttributeDescriptorWithSelection, h]
  · intro out e rest h
    unfold DecodeAttributeDescriptorWithSelection advanceOri at h
    repeat' split at h
    all_goals
      first
        | (simp only [Run.ret.injEq] at h; exact h.2.2.symm)
        | simp at h

/-- Witness of C16 on the sample codec: a 3-byte input stopped by the length guard, and a
12-byte input whose access descriptor is rejected by the delegated decoder after it has
moved its own cursor. -/
theorem C16_decode_failure_atomic_witness :
    DecodeAttributeDescriptorWithSelection sampleCodec [0, 1, 0]
        = Run.ret {} (some (DecodeError.lengthBelow 11)) [0, 1, 0]
      ∧ DecodeAttributeDescriptorWithSelection sampleCodec
          [0, 1, 0, 0, 1, 0, 0, 255, 2, 1, 0xFF, 0xAA]
        = Run.ret { ClassId := 1, InstanceId := ⟨[0, 0, 1, 0, 0, 255]⟩, AttributeId := 2 }
            (some (DecodeError.unrecognizedCode 0xFF))
            [0, 1, 0, 0, 1, 0, 0, 255, 2, 1, 0xFF, 0xAA] := by
  refine ⟨(C16_decode_failure_atomic Nat sampleCodec [0, 1, 0]).1 (by decide), ?_⟩
  decide

/-! ## C17: encoded sizes of the set-response family -/

/-- C17. For all field values the encodings of SetResponseNormal, SetResponseDataBlock
and SetResponseLastDataBlock have 4, 7 and 8 bytes; for a list of `n` elements,
`1 ≤ n ≤ 255`, the two list constructors succeed and the encodings of the values they
build have `4 + n` and `8 + n` bytes. Each encoding starts with `TagSetResponse` and the
tag of its own shape, and the fourth byte of the list encodings is `n`. -/
theorem C17_setResponse_encoded_sizes (reg : TagRegistry) (a : SetResponseNormal)
    (b : SetResponseDataBlock) (c : SetResponseLastDataBlock) (p bn : Nat) (L : List Nat)
    (h1 : 1 ≤ L.length) (h255 : L.length ≤ 255) :
    ((a.Encode reg).length = 4 ∧ (a.Encode reg).take 2 = [reg.TagSetResponse, 0x1])
      ∧ ((b.Encode reg).length = 7 ∧ (b.Encode reg).take 2 = [reg.TagSetResponse, 0x2])
      ∧ ((c.Encode reg).length = 8 ∧ (c.Encode reg).take 2 = [reg.TagSetResponse, 0x3])
      ∧ (∃ w, CreateSetResponseLastDataBlockWithList p L bn = some w
          ∧ (w.Encode reg).length = 8 + L.length
          ∧ (w.Encode reg).take 2 = [reg.TagSetResponse, 0x4]
          ∧ (w.Encode reg)[3]? = some L.length)
      ∧ (∃ v, CreateSetResponseWithList p L = some v
          ∧ (v.Encode reg).length = 4 + L.length
          ∧ (v.Encode reg).take 2 = [reg.TagSetResponse, 0x5]
          ∧ (v.Encode reg)[3]? = some L.length) := by
  have hn : ¬ (L.length < 1 ∨ L.length > 255) := by omega
  have hmod : L.length % 256 = L.length := Nat.mod_eq_of_lt (by omega)
  refine ⟨⟨rfl, rfl⟩, ⟨rfl, rfl⟩, ⟨rfl, rfl⟩, ?_, ?_⟩
  · refine ⟨{ InvokePriority := p, ResultCount := L.length % 256, ResultList := L,
               BlockNum := bn },
      by simp only [CreateSetResponseLastDataBlockWithList, if_neg hn], ?_, ?_, ?_⟩
    · simp [SetResponseLastDataBlockWithList.Encode, EncodeDoubleLongUnsigned]; omega
    · simp [SetResponseLastDataBlockWithList.Encode, TagSetResponseLastDataBlockWithList]
    · simp [SetResponseLastDataBlockWithList.Encode, hmod]
  · refine ⟨{ InvokePriority := p, ResultCount := L.length % 256, ResultList := L },
      by simp only [CreateSetResponseWithList, if_neg hn], ?_, ?_, ?_⟩
    · simp [SetResponseWithList.Encode]; omega
    · simp [SetResponseWithList.Encode, TagSetResponseWithList]
    · simp [SetResponseWithList.Encode, hmod]

/-- Witness of C17 on the sample registry with the three-element list `[0, 3, 250]`. -/
theorem C17_setResponse_encoded_sizes_witness :
    (∃ w, CreateSetResponseLastDataBlockWithList 0x41 [0, 3, 250] 9 = some w
        ∧ (w.Encode sampleRegistry).length = 8 + 3
        ∧ (w.Encode sampleRegistry).take 2 = [0xC5, 0x4]
        ∧ (w.Encode sampleRegistry)[3]? = some 3)
      ∧ (∃ v, CreateSetResponseWithList 0x41 [0, 3, 250] = some v
        ∧ (v.Encode sampleRegistry).length = 4 + 3
        ∧ (v.Encode sampleRegistry).take 2 = [0xC5, 0x5]
        ∧ (v.Encode sampleRegistry)[3]? = some 3) :=
  (C17_setResponse_encoded_sizes sampleRegistry {} {} {} 0x41 9 [0, 3, 250]
    (by decide) (by decide)).2.2.2

/-! ## C18: ActionResponseWithOptData -/

/-- C18. For every action-result code `r`, the value without return parameter encodes to
`[r, 0x00]` (so `{Success = 0, none}` gives `[0x00, 0x00]`), and the value with return
parameter `g` encodes to `[r, 0x01]` followed by `g.Encode()`; for the two kinds of `g`
that the constructors build this is `[r, 0x01, 0x01] ++ encode(d)` and
`[r, 0x01, 0x00, c]`. -/
theorem C18_actionResponse_encode_layout (D : Type) (codec : Codec D) (r c : Nat) (d : D)
    (g : GetDataResult D) :
    (CreateActionResponseWithOptData r (none : Option (GetDataResult D))).Encode codec
        = some [r, 0x00]
      ∧ (CreateActionResponseWithOptData 0 (none : Option (GetDataResult D))).Encode codec
        = some [0x00, 0x00]
      ∧ (CreateActionResponseWithOptData r (some g)).Encode codec
        = (g.Encode codec).map (fun bs => [r, 0x01] ++ bs)
      ∧ (CreateActionResponseWithOptData r (some (CreateGetDataResultAsData d))).Encode codec
        = some ([r, 0x01] ++ ([0x01] ++ codec.Encode d))
      ∧ (CreateActionResponseWithOptData r
            (some (CreateGetDataResultAsResult c : GetDataResult D))).Encode codec
        = some ([r, 0x01] ++ [0x00, c]) := by
  refine ⟨rfl, rfl, ?_, rfl, rfl⟩
  simp only [CreateActionResponseWithOptData, ActionResponseWithOptData.Encode]
  cases g.Encode codec <;> rfl

/-! ## C19: the result-list loop stops at the first invalid code -/

theorem decodeResultList_stops (reg : TagRegistry) (good : List Nat) (bad : Nat)
    (tail : List Nat) (hgood : ∀ r ∈ good, r ∈ reg.accessCodes) (hbad : bad ∉ reg.accessCodes)
    (n : Nat) (hn : good.length < n) (acc : List Nat) :
    decodeResultList reg n acc (good ++ bad :: tail)
      = some (acc ++ good, some (DecodeError.unrecognizedCode bad), bad :: tail) := by
  induction good generalizing n acc with
  | nil =>
    obtain ⟨m, rfl⟩ : ∃ m, n = m + 1 := ⟨n - 1, by simp at hn; omega⟩
    simp [decodeResultList, getAccessTag_of_not_mem reg bad hbad]
  | cons r good ih =>
    obtain ⟨m, rfl⟩ : ∃ m, n = m + 1 := ⟨n - 1, by simp at hn; omega⟩
    have hr : r ∈ reg.accessCodes := hgood r (List.mem_cons_self r good)
    have hg : ∀ x ∈ good, x ∈ reg.accessCodes :=
      fun x hx => hgood x (List.mem_cons_of_mem r hx)
    have hm : good.length < m := by simp at hn; omega
    simp [decodeResultList, getAccessTag_of_mem reg r hr, ih hg m hm]

/-- C19. On an input `TagSetResponse, 0x05, invoke, count` followed by `i < count`
registry codes, a byte `bad` outside the registry and any further bytes,
`DecodeSetResponseWithList` returns the registry error for `bad` and leaves the cursor at
that byte, `4 + i` bytes into the input, whatever the later bytes are; the value
returned with the error holds the `i` codes read so far. The same holds for
`DecodeSetResponseLastDataBlockWithList` with tag 0x04. -/
theorem C19_result_list_stops_at_invalid (reg : TagRegistry) (p count bad : Nat)
    (good tail : List Nat) (hgood : ∀ r ∈ good, r ∈ reg.accessCodes)
    (hbad : bad ∉ reg.accessCodes) (hi : good.length < count) :
    DecodeSetResponseWithList reg
        (reg.TagSetResponse :: 0x05 :: p :: count :: (good ++ bad :: tail))
        = Run.ret { InvokePriority := p, ResultCount := count, ResultList := good }
            (some (DecodeError.unrecognizedCode bad)) (bad :: tail)
      ∧ DecodeSetResponseLastDataBlockWithList reg
          (reg.TagSetResponse :: 0x04 :: p :: count :: (good ++ bad :: tail))
        = Run.ret { InvokePriority := p, ResultCount := count, ResultList := good }
            (some (DecodeError.unrecognizedCode bad)) (bad :: tail)
      ∧ (reg.TagSetResponse :: 0x05 :: p :: count :: (good ++ bad :: tail)).drop
          (4 + good.length) = bad :: tail := by
  have hl := decodeResultList_stops reg good bad tail hgood hbad count hi []
  refine ⟨?_, ?_, ?_⟩
  · simp [DecodeSetResponseWithList, TagSetResponseWithList, hl]
  · simp [DecodeSetResponseLastDataBlockWithList, TagSetResponseLastDataBlockWithList, hl]
  · have : 4 + good.length = good.length + 4 := by omega
    rw [this]
    simp

/-- Witness of C19 on the sample registry: count 3, one valid code, then 0x05. -/
theorem C19_result_list_stops_at_invalid_witness :
    DecodeSetResponseWithList sampleRegistry [0xC5, 0x05, 0x40, 3, 0, 0x05, 0x01]
        = Run.ret { InvokePriority := 0x40, ResultCount := 3, ResultList := [0] }
            (some (DecodeError.unrecognizedCode 0x05)) [0x05, 0x01]
      ∧ DecodeSetResponseLastDataBlockWithList sampleRegistry
          [0xC5, 0x04, 0x40, 3, 0, 0x05, 0x01]
        = Run.ret { InvokePriority := 0x40, ResultCount := 3, ResultList := [0] }
            (some (DecodeError.unrecognizedCode 0x05)) [0x05, 0x01]
      ∧ ([0xC5, 0x05, 0x40, 3, 0, 0x05, 0x01] : List Nat).drop (4 + 1) = [0x05, 0x01] :=
  C19_result_list_stops_at_invalid sampleRegistry 0x40 3 0x05 [0] [0x01] (by decide)
    (by decide) (by decide)

/-! ## C20: the dispatcher and the shape decoders -/

/-- Boxing keeps error and cursor and wraps the value; a panic stays a panic. -/
theorem run_box_eq {α : Type} (f : α → CosemPDU) (out : α) (err : Option DecodeError)
    (src : List Nat) :
    (Run.ret out err src).box f = Run.ret (some (f out)) err src
      ∧ (Run.panic : Run α).box f = Run.panic :=
  ⟨rfl, rfl⟩

/-- After a matching outer tag, the dispatcher's switch selects the shape decoder of the
second byte and boxes what it returns. -/
theorem setResponse_decode_selects (reg : TagRegistry) (rest : List Nat) :
    SetResponse.Decode reg (reg.TagSetResponse :: 0x01 :: rest)
        = (DecodeSetResponseNormal reg (reg.TagSetResponse :: 0x01 :: rest)).box
            CosemPDU.normal
      ∧ SetResponse.Decode reg (reg.TagSetResponse :: 0x02 :: rest)
        = (DecodeSetResponseDataBlock reg (reg.TagSetResponse :: 0x02 :: rest)).box
            CosemPDU.dataBlock
      ∧ SetResponse.Decode reg (reg.TagSetResponse :: 0x03 :: rest)
        = (DecodeSetResponseLastDataBlock reg (reg.TagSetResponse :: 0x03 :: rest)).box
            CosemPDU.lastDataBlock
      ∧ SetResponse.Decode reg (reg.TagSetResponse :: 0x04 :: rest)
        = (DecodeSetResponseLastDataBlockWithList reg
            (reg.TagSetResponse :: 0x04 :: rest)).box CosemPDU.lastDataBlockWithList
      ∧ SetResponse.Decode reg (reg.TagSetResponse :: 0x05 :: rest)
        = (DecodeSetResponseWithList reg (reg.TagSetResponse :: 0x05 :: rest)).box
            CosemPDU.withList := by
  refine ⟨?_, ?_, ?_, ?_, ?_⟩ <;>
    simp [SetResponse.Decode, TagSetResponseNormal, TagSetResponseDataBlock,
      TagSetResponseLastDataBlock, TagSetResponseLastDataBlockWithList, TagSetResponseWithList]

/-- C20. On every input that starts with `TagSetResponse` and a variant tag 0x01..0x05:
whenever the shape decoder selected by the second byte (Normal, DataBlock, LastDataBlock,
LastDataBlockWithList, WithList respectively) returns value `out`, error `err` and final
cursor `s` on that input, `SetResponse.Decode` returns the PDU holding exactly `out`, the
same `err` and the same cursor `s`; and whenever that shape decoder panics,
`SetResponse.Decode` panics. -/
theorem C20_setResponse_decode_dispatch (reg : TagRegistry) (rest : List Nat) :
    ((∀ out err s,
          DecodeSetResponseNormal reg (reg.TagSetResponse :: 0x01 :: rest) = Run.ret out err s →
          SetResponse.Decode reg (reg.TagSetResponse :: 0x01 :: rest)
            = Run.ret (some (CosemPDU.normal out)) err s)
        ∧ (DecodeSetResponseNormal reg (reg.TagSetResponse :: 0x01 :: rest) = Run.panic →
          SetResponse.Decode reg (reg.TagSetResponse :: 0x01 :: rest) = Run.panic))
      ∧ ((∀ out err s,
          DecodeSetResponseDataBlock reg (reg.TagSetResponse :: 0x02 :: rest)
            = Run.ret out err s →
          SetResponse.Decode reg (reg.TagSetResponse :: 0x02 :: rest)
            = Run.ret (some (CosemPDU.dataBlock out)) err s)
        ∧ (DecodeSetResponseDataBlock reg (reg.TagSetResponse :: 0x02 :: rest) = Run.panic →
          SetResponse.Decode reg (reg.TagSetResponse :: 0x02 :: rest) = Run.panic))
      ∧ ((∀ out err s,
          DecodeSetResponseLastDataBlock reg (reg.TagSetResponse :: 0x03 :: rest)
            = Run.ret out err s →
          SetResponse.Decode reg (reg.TagSetResponse :: 0x03 :: rest)
            = Run.ret (some (CosemPDU.lastDataBlock out)) err s)
        ∧ (DecodeSetResponseLastDataBlock reg (reg.TagSetResponse :: 0x03 :: rest)
            = Run.panic →
          SetResponse.Decode reg (reg.TagSetResponse :: 0x03 :: rest) = Run.panic))
      ∧ ((∀ out err s,
          DecodeSetResponseLastDataBlockWithList reg (reg.TagSetResponse :: 0x04 :: rest)
            = Run.ret out err s →
          SetResponse.Decode reg (reg.TagSetResponse :: 0x04 :: rest)
            = Run.ret (some (CosemPDU.lastDataBlockWithList out)) err s)
        ∧ (DecodeSetResponseLastDataBlockWithList reg (reg.TagSetResponse :: 0x04 :: rest)
            = Run.panic →
          SetResponse.Decode reg (reg.TagSetResponse :: 0x04 :: rest) = Run.panic))
      ∧ ((∀ out err s,
          DecodeSetResponseWithList reg (reg.TagSetResponse :: 0x05 :: rest)
            = Run.ret out err s →
          SetResponse.Decode reg (reg.TagSetResponse :: 0x05 :: rest)
            = Run.ret (some (CosemPDU.withList out)) err s)
        ∧ (DecodeSetResponseWithList reg (reg.TagSetResponse :: 0x05 :: rest) = Run.panic →
          SetResponse.Decode reg (reg.TagSetResponse :: 0x05 :: rest) = Run.panic)) := by
  obtain ⟨h1, h2, h3, h4, h5⟩ := setResponse_decode_selects reg rest
  refine ⟨⟨?_, ?_⟩, ⟨?_, ?_⟩, ⟨?_, ?_⟩, ⟨?_, ?_⟩, ⟨?_, ?_⟩⟩
  · intro out err s h
    rw [h1, h]; rfl
  · intro h
    rw [h1, h]; rfl
  · intro out err s h
    rw [h2, h]; rfl
  · intro h
    rw [h2, h]; rfl
  · intro out err s h
    rw [h3, h]; rfl
  · intro h
    rw [h3, h]; rfl
  · intro out err s h
    rw [h4, h]; rfl
  · intro h
    rw [h4, h]; rfl
  · intro out err s h
    rw [h5, h]; rfl
  · intro h
    rw [h5, h]; rfl

/-- Witness of C20 on the sample registry: a Normal PDU with a trailing byte (value and
advanced cursor), a Normal PDU with the unknown code 0x05 (error and unchanged cursor), a
truncated Normal PDU (panic), and a WithList PDU with two codes. -/
theorem C20_setResponse_decode_dispatch_witness :
    SetResponse.Decode sampleRegistry [0xC5, 0x01, 0x81, 3, 0xAA]
        = Run.ret (some (CosemPDU.normal { InvokePriority := 0x81, Result := 3 })) none [0xAA]
      ∧ SetResponse.Decode sampleRegistry [0xC5, 0x01, 0x81, 5, 0xAA]
        = Run.ret (some (CosemPDU.normal { InvokePriority := 0x81, Result := 0 }))
            (some (DecodeError.unrecognizedCode 5)) [0xC5, 0x01, 0x81, 5, 0xAA]
      ∧ SetResponse.Decode sampleRegistry [0xC5, 0x01, 0x81] = Run.panic
      ∧ SetResponse.Decode sampleRegistry [0xC5, 0x05, 0x40, 2, 0, 250, 0xBB]
        = Run.ret (some (CosemPDU.withList
              { InvokePriority := 0x40, ResultCount := 2, ResultList := [0, 250] }))
            none [0xBB] :=
  ⟨(C20_setResponse_decode_dispatch sampleRegistry [0x81, 3, 0xAA]).1.1 _ _ _ (by decide),
    (C20_setResponse_decode_dispatch sampleRegistry [0x81, 5, 0xAA]).1.1 _ _ _ (by decide),
    (C20_setResponse_decode_dispatch sampleRegistry [0x81]).1.2 (by decide),
    (C20_setResponse_decode_dispatch sampleRegistry [0x40, 2, 0, 250, 0xBB]).2.2.2.2.1 _ _ _
      (by decide)⟩

end Cosem
